import Mathlib

/-!
Shallow embedding of the document indexing and retrieval pipeline of
MVP_LargeDocumentInteraction.

Two concrete implementations coexist in the repository:
* `src/rag_system.py` (`RAGSystem`): a ChromaDB-backed pipeline with
  `process_document`, `search_document` and `generate_response`;
* `src/backend/` (`SimpleRAG`, `VectorStore`, `TextFileManager`): a
  langchain-Chroma pipeline with `load_uploaded_document`,
  `process_text_content_to_chunks`, `load_and_index_documents`,
  `get_document_count` and `chat`.

External collaborators (the embedding provider, the LLM, the Chroma store)
are modelled as parameters: an opaque embedding type `Emb`, an embedding
function `String → Emb`, a cosine-distance function `Emb → Emb → ℚ`, and
`Except`-valued outcomes at the points where the Python code wraps an
external call in `try/except`.  The vector collection is modelled as a
list of entries in insertion order; the store's `query` is modelled as a
stable ranking by ascending cosine distance (descending similarity), which
is the deterministic list-level reading of "ranked matches" for a
collection created with the cosine `hnsw:space`.
-/

namespace RagMVP

/-- A Python exception, as far as the embedded control flow needs to
distinguish it. -/
inductive PyError
  | typeError
  | valueError
  | runtimeError
deriving DecidableEq, Repr

/-! ## Backend: `src/backend/` data model -/

/-- A langchain `Document`: page content plus its `source` metadata
(`src/backend/text_loader.py`). -/
structure BDoc where
  page_content : String
  source : String
deriving DecidableEq, Repr

/-- The Python test `not text or not text.strip()`: the string is empty or
holds only whitespace. -/
def isBlank (s : String) : Bool := s.data.all Char.isWhitespace

/-- `TextFileManager.process_text_content_to_chunks`
(`src/backend/text_loader.py`, lines 61-87): blank content short-circuits
to zero chunks; otherwise `chunk_overlap >= chunk_size` raises
`ValueError`; otherwise the recursive splitter (modelled by the opaque
`split` parameter) cuts the text and every chunk carries the source name in
its metadata. -/
def process_text_content_to_chunks (split : String → List String)
    (chunk_size chunk_overlap : Int) (text_content source_name : String) :
    Except PyError (List BDoc) :=
  if isBlank text_content then Except.ok []
  else if chunk_size ≤ chunk_overlap then Except.error PyError.valueError
  else Except.ok ((split text_content).map (fun t => ⟨t, source_name⟩))

/-- `VectorStore.clear_vector_store` (`src/backend/vector_store.py`,
lines 39-41): deletes the whole collection. -/
def clear_vector_store (_store : List BDoc) : List BDoc := []

/-- `VectorStore.add_documents` (`src/backend/vector_store.py`,
lines 44-55): refuses an empty batch with `False`, otherwise appends the
documents to the collection and reports `True` (happy path of the
surrounding `try`). -/
def add_documents (store : List BDoc) (documents : List BDoc) :
    Bool × List BDoc :=
  if documents.isEmpty then (false, store)
  else (true, store ++ documents)

/-- `SimpleRAG.load_uploaded_document` (`src/backend/rag_system.py`,
lines 81-94): clears the vector store FIRST, then chunks the uploaded
content; a `ValueError` from the chunker is caught by the enclosing
`except` and turned into `False`, zero chunks also yield `False`, and
otherwise the chunks are added.  The returned pair is
(reported success, final store contents). -/
def load_uploaded_document (split : String → List String)
    (chunk_size chunk_overlap : Int) (store : List BDoc)
    (file_content filename : String) : Bool × List BDoc :=
  let cleared := clear_vector_store store
  match process_text_content_to_chunks split chunk_size chunk_overlap
      file_content filename with
  | Except.error _ => (false, cleared)
  | Except.ok chunks =>
      if chunks.isEmpty then (false, cleared)
      else add_documents cleared chunks

/-- Work performed by `VectorStore.load_and_index_documents` past its
early-return check. -/
inductive IndexAction
  | load_and_split_docs
  | add_docs
deriving DecidableEq, Repr

/-- `VectorStore.load_and_index_documents` (`src/backend/vector_store.py`,
lines 70-86): unless a forced reload was requested, a non-zero collection
count short-circuits to success with no work; otherwise the data directory
is loaded and split (its result modelled by `defaults`) and added.  The
third component records which pipeline stages actually ran. -/
def load_and_index_documents (store : List BDoc) (defaults : List BDoc)
    (force_reload : Bool) : Bool × List BDoc × List IndexAction :=
  if force_reload = false ∧ 0 < store.length then (true, store, [])
  else if defaults.isEmpty then
    (false, store, [IndexAction.load_and_split_docs])
  else
    (true, store ++ defaults,
      [IndexAction.load_and_split_docs, IndexAction.add_docs])

/-- `VectorStore.get_document_count` (`src/backend/vector_store.py`,
lines 89-94): returns the collection count, and a bare `except:` converts
any failure of the underlying call into `0`. -/
def get_document_count (count_result : Except PyError Nat) : Nat :=
  match count_result with
  | Except.ok n => n
  | Except.error _ => 0

/-- The fixed fallback string of `SimpleRAG.chat`
(`src/backend/rag_system.py`, line 64). -/
def chat_fallback : String := "Sorry, I encountered an error. Please try again."

/-- `SimpleRAG.chat` (`src/backend/rag_system.py`, lines 57-64): invokes
the conversational retrieval chain (an external collaborator, modelled as
a fallible function) and returns its answer; any exception is caught and
replaced by the fixed fallback string. -/
def chat (invoke_chain : String → Except PyError String)
    (question : String) : String :=
  match invoke_chain question with
  | Except.ok answer => answer
  | Except.error _ => chat_fallback

/-! ## Claims C3, C7, C8, C10 -/

/-- Claim C3 counterexample: uploading empty content does NOT leave the
vector store unchanged — `load_uploaded_document` clears the store before
chunking, so a previously stored vector is removed even though the upload
produced zero chunks and failure is reported. -/
theorem load_uploaded_document_empty_clears_store :
    (load_uploaded_document (fun s => [s]) 1500 200
        [⟨"old chunk", "prev.txt"⟩] "" "up.txt")
      = (false, []) ∧
    ([] : List BDoc) ≠ [⟨"old chunk", "prev.txt"⟩] := by
  constructor
  · decide
  · decide

/-- Claim C3 (amended): a document yielding zero chunks (blank content)
makes `load_uploaded_document` report failure, but only after the store
has been cleared: the final store is empty whatever it held before, so
previously stored vectors ARE removed (and none added). -/
theorem load_uploaded_document_empty_spec (split : String → List String)
    (chunk_size chunk_overlap : Int) (store : List BDoc)
    (file_content filename : String) (h : isBlank file_content = true) :
    load_uploaded_document split chunk_size chunk_overlap store
      file_content filename = (false, []) := by
  unfold load_uploaded_document process_text_content_to_chunks
  simp [h, clear_vector_store]

/-- Witness for `load_uploaded_document_empty_spec` at blank content and a
non-empty prior store. -/
theorem load_uploaded_document_empty_spec_witness :
    isBlank "" = true ∧
    load_uploaded_document (fun s => [s]) 1500 200
      [⟨"old chunk", "prev.txt"⟩] "" "up.txt" = (false, []) :=
  ⟨by decide, load_uploaded_document_empty_spec (fun s => [s]) 1500 200
    [⟨"old chunk", "prev.txt"⟩] "" "up.txt" (by decide)⟩

/-- Claim C7: `SimpleRAG.chat` never propagates an exception: a failing
chain invocation yields the fixed fallback string, and a successful one
returns the chain's answer text unmodified. -/
theorem chat_catches_and_returns_text
    (invoke_chain : String → Except PyError String) (question : String) :
    (∀ e, invoke_chain question = Except.error e →
      chat invoke_chain question = chat_fallback) ∧
    (∀ answer, invoke_chain question = Except.ok answer →
      chat invoke_chain question = answer) := by
  constructor
  · intro e he
    simp [chat, he]
  · intro answer ha
    simp [chat, ha]

/-- Witness for `chat_catches_and_returns_text`: a succeeding chain's
answer comes back unmodified and a raising chain yields the fallback. -/
theorem chat_catches_and_returns_text_witness :
    chat (fun _ => Except.ok "grounded answer") "What is this about?"
        = "grounded answer" ∧
    chat (fun _ => Except.error PyError.runtimeError) "What is this about?"
        = chat_fallback :=
  ⟨(chat_catches_and_returns_text (fun _ => Except.ok "grounded answer")
      "What is this about?").2 "grounded answer" rfl,
   (chat_catches_and_returns_text (fun _ => Except.error PyError.runtimeError)
      "What is this about?").1 PyError.runtimeError rfl⟩

/-- Claim C8 counterexample: `chunk_overlap = 0` violates the claimed
precondition `0 < chunk_overlap < chunk_size`, yet the chunker raises
nothing and happily produces chunks. -/
theorem process_text_content_zero_overlap_ok :
    process_text_content_to_chunks (fun s => [s]) 10 0 "hello world" "f.txt"
        = Except.ok [⟨"hello world", "f.txt"⟩] ∧
    ¬ (0 < (0 : Int)) := by
  constructor
  · rfl
  · decide

/-- Claim C8 (amended): for non-blank content the chunker raises
`ValueError` exactly when `chunk_overlap ≥ chunk_size`; the positivity of
the two parameters is never checked, and blank content returns zero chunks
without any parameter check at all. -/
theorem process_text_content_check_spec (split : String → List String)
    (chunk_size chunk_overlap : Int) (text_content source_name : String)
    (h : isBlank text_content = false) :
    (chunk_size ≤ chunk_overlap →
      process_text_content_to_chunks split chunk_size chunk_overlap
        text_content source_name = Except.error PyError.valueError) ∧
    (chunk_overlap < chunk_size →
      process_text_content_to_chunks split chunk_size chunk_overlap
        text_content source_name
        = Except.ok ((split text_content).map (fun t => ⟨t, source_name⟩))) := by
  constructor
  · intro hle
    simp [process_text_content_to_chunks, h, hle]
  · intro hlt
    simp [process_text_content_to_chunks, h, not_le.mpr hlt]

/-- Witness for `process_text_content_check_spec`: with non-blank content,
overlap 2000 against size 1500 raises, while overlap 200 splits. -/
theorem process_text_content_check_spec_witness :
    isBlank "hello" = false ∧
    process_text_content_to_chunks (fun s => [s]) 1500 2000 "hello" "f.txt"
        = Except.error PyError.valueError ∧
    process_text_content_to_chunks (fun s => [s]) 1500 200 "hello" "f.txt"
        = Except.ok [⟨"hello", "f.txt"⟩] := by
  refine ⟨by decide, ?_, ?_⟩
  · exact (process_text_content_check_spec (fun s => [s]) 1500 2000 "hello"
      "f.txt" (by decide)).1 (by decide)
  · exact (process_text_content_check_spec (fun s => [s]) 1500 200 "hello"
      "f.txt" (by decide)).2 (by decide)

/-- Claim C10: `get_document_count` is total and non-negative: a
successful count is returned as is, any underlying failure is converted to
`0`, and an unreachable store is therefore indistinguishable from an empty
one. -/
theorem get_document_count_total (e : PyError) (n : Nat) :
    get_document_count (Except.error e) = 0 ∧
    get_document_count (Except.ok n) = n ∧
    get_document_count (Except.error e) = get_document_count (Except.ok 0) := by
  refine ⟨rfl, rfl, rfl⟩

/-- Claim C9: when the store already holds at least one chunk of the given
document (hence reports a non-zero count) and no forced reload was
requested, `load_and_index_documents` returns success immediately, leaves
the store unchanged, and performs no loading, chunking or writing. -/
theorem load_and_index_skips_when_indexed (store defaults : List BDoc)
    (doc_id : String)
    (h : 0 < (store.filter (fun d => d.source == doc_id)).length) :
    load_and_index_documents store defaults false = (true, store, []) := by
  have hlen : 0 < store.length :=
    lt_of_lt_of_le h (List.length_filter_le _ _)
  unfold load_and_index_documents
  simp [hlen]

/-- Witness for `load_and_index_skips_when_indexed`: one chunk of
`doc.txt` already present short-circuits indexing of the defaults. -/
theorem load_and_index_skips_when_indexed_witness :
    0 < (([⟨"text", "doc.txt"⟩] : List BDoc).filter
          (fun d => d.source == "doc.txt")).length ∧
    load_and_index_documents [⟨"text", "doc.txt"⟩] [⟨"x", "other.txt"⟩] false
      = (true, [⟨"text", "doc.txt"⟩], []) :=
  ⟨by decide,
   load_and_index_skips_when_indexed [⟨"text", "doc.txt"⟩]
     [⟨"x", "other.txt"⟩] "doc.txt" (by decide)⟩

/-! ## RAGSystem: `src/rag_system.py` data model -/

/-- One persisted vector of the Chroma collection, as `process_document`
writes it: id `f"{file_name}_{i}"`, the chunk text, the `source_file` and
`chunk_index` metadata, and the embedding (opaque type `Emb`). -/
structure VecEntry (Emb : Type) where
  id : String
  text : String
  source_file : String
  chunk_index : Nat
  embedding : Emb
deriving DecidableEq

/-- The entries built by the preparation loop of
`RAGSystem.process_document` (`src/rag_system.py`, lines 110-123),
starting at chunk index `i`. -/
def mkEntries {Emb : Type} (file_name : String) (embed : String → Emb) :
    Nat → List String → List (VecEntry Emb)
  | _, [] => []
  | i, t :: ts =>
      ⟨file_name ++ "_" ++ toString i, t, file_name, i, embed t⟩ ::
        mkEntries file_name embed (i + 1) ts

/-- `RAGSystem.process_document` (`src/rag_system.py`, lines 85-156),
collection mutation only: `collection.get()` fetches ALL ids, they are all
deleted ("full reset for new file"), then the freshly split chunks are
embedded and added with ids `f"{file_name}_{i}"` in order.  `all_splits`
models the text splitter's output on the loaded file. -/
def processDocument {Emb : Type} (store : List (VecEntry Emb))
    (file_name : String) (all_splits : List String)
    (embed : String → Emb) : List (VecEntry Emb) :=
  let after_delete : List (VecEntry Emb) := []
  after_delete ++ mkEntries file_name embed 0 all_splits

/-- Stable ranked insertion: `a` is placed before the first element whose
key is not strictly smaller, so earlier-listed elements win among equal
keys. -/
def insertRanked {α : Type} (key : α → ℚ) (a : α) : List α → List α
  | [] => [a]
  | b :: bs =>
      if key b < key a then b :: insertRanked key a bs else a :: b :: bs

/-- Stable sort by ascending key.  This is the deterministic list model of
the Chroma collection's `query`: matches ranked by ascending cosine
distance (descending similarity), equal distances kept in insertion
order. -/
def rankSort {α : Type} (key : α → ℚ) : List α → List α
  | [] => []
  | a :: as => insertRanked key a (rankSort key as)

/-- The store side of `collection.query(query_texts=[query],
n_results=top_k, where=..., include=["documents"])` as issued by
`RAGSystem.search_document` (`src/rag_system.py`, lines 163-169): restrict
to entries whose `source_file` metadata equals the active file, rank by
ascending cosine distance to the query embedding, and keep the first
`top_k`. -/
def searchRanked {Emb : Type} (store : List (VecEntry Emb))
    (current_file : String) (query_embedding : Emb) (top_k : Nat)
    (dist : Emb → Emb → ℚ) : List (VecEntry Emb) :=
  (rankSort (fun e => dist query_embedding e.embedding)
      (store.filter (fun e => e.source_file == current_file))).take top_k

/-- `RAGSystem.search_document` (`src/rag_system.py`, lines 159-174): the
query string is embedded and searched with no blank-query special case;
the surrounding `try/except` converts any failure of the store call
(modelled by `collection_response`) into an empty list. -/
def searchDocument {Emb : Type}
    (collection_response : Except PyError (List (VecEntry Emb)))
    (current_file : String) (query : String) (embed : String → Emb)
    (top_k : Nat) (dist : Emb → Emb → ℚ) : List String :=
  match collection_response with
  | Except.error _ => []
  | Except.ok store =>
      (searchRanked store current_file (embed query) top_k dist).map
        (fun e => e.text)

/-! ## Ranking lemmas -/

theorem mem_insertRanked {α : Type} (key : α → ℚ) (a x : α) (l : List α) :
    x ∈ insertRanked key a l ↔ x = a ∨ x ∈ l := by
  induction l with
  | nil => simp [insertRanked]
  | cons b bs ih =>
    by_cases h : key b < key a
    · simp only [insertRanked, if_pos h, List.mem_cons, ih]
      tauto
    · simp only [insertRanked, if_neg h, List.mem_cons]

theorem mem_rankSort {α : Type} (key : α → ℚ) (x : α) (l : List α) :
    x ∈ rankSort key l ↔ x ∈ l := by
  induction l with
  | nil => simp [rankSort]
  | cons a as ih =>
    simp only [rankSort, mem_insertRanked, ih, List.mem_cons]

/-- Ranked-before: strictly smaller key, or equal key and no later chunk
index.  Descending cosine similarity with ties broken by ascending
sequence index is exactly `rankedLE (cosine distance) chunk_index`. -/
def rankedLE {α : Type} (key : α → ℚ) (idx : α → Nat) (a b : α) : Prop :=
  key a < key b ∨ (key a = key b ∧ idx a ≤ idx b)

theorem insertRanked_pairwise {α : Type} (key : α → ℚ) (idx : α → Nat)
    (a : α) (l : List α) (hl : l.Pairwise (rankedLE key idx))
    (ha : ∀ b ∈ l, idx a ≤ idx b) :
    (insertRanked key a l).Pairwise (rankedLE key idx) := by
  induction l with
  | nil => simp [insertRanked]
  | cons b bs ih =>
    rw [List.pairwise_cons] at hl
    by_cases h : key b < key a
    · simp only [insertRanked, if_pos h]
      rw [List.pairwise_cons]
      refine ⟨?_, ih hl.2 (fun c hc => ha c (List.mem_cons_of_mem b hc))⟩
      intro x hx
      rcases (mem_insertRanked key a x bs).mp hx with hxa | hxbs
      · exact hxa ▸ Or.inl h
      · exact hl.1 x hxbs
    · have hab : key a ≤ key b := le_of_not_lt h
      simp only [insertRanked, if_neg h]
      rw [List.pairwise_cons]
      refine ⟨?_, List.pairwise_cons.mpr hl⟩
      intro x hx
      rcases List.mem_cons.mp hx with hxb | hxbs
      · subst hxb
        rcases lt_or_eq_of_le hab with hlt | heq
        · exact Or.inl hlt
        · exact Or.inr ⟨heq, ha x (List.mem_cons_self x bs)⟩
      · have hbx : key b ≤ key x := by
          rcases hl.1 x hxbs with hlt | ⟨heq, _⟩
          · exact le_of_lt hlt
          · exact le_of_eq heq
        rcases lt_or_eq_of_le (le_trans hab hbx) with hlt | heq
        · exact Or.inl hlt
        · exact Or.inr ⟨heq, ha x (List.mem_cons_of_mem b hxbs)⟩

theorem rankSort_pairwise {α : Type} (key : α → ℚ) (idx : α → Nat)
    (l : List α) (hl : l.Pairwise (fun a b => idx a ≤ idx b)) :
    (rankSort key l).Pairwise (rankedLE key idx) := by
  induction l with
  | nil => simp [rankSort]
  | cons a as ih =>
    rw [List.pairwise_cons] at hl
    exact insertRanked_pairwise key idx a (rankSort key as) (ih hl.2)
      (fun b hb => hl.1 b ((mem_rankSort key b as).mp hb))

/-! ## Chunk-entry lemmas -/

theorem mkEntries_index_ge {Emb : Type} (file_name : String)
    (embed : String → Emb) (i : Nat) (ts : List String) :
    ∀ e ∈ mkEntries file_name embed i ts, i ≤ e.chunk_index := by
  induction ts generalizing i with
  | nil => simp [mkEntries]
  | cons t ts ih =>
    intro e he
    rcases List.mem_cons.mp he with heq | htl
    · subst heq; exact le_refl i
    · exact le_trans (Nat.le_succ i) (ih (i + 1) e htl)

theorem mkEntries_pairwise_index {Emb : Type} (file_name : String)
    (embed : String → Emb) (i : Nat) (ts : List String) :
    (mkEntries file_name embed i ts).Pairwise
      (fun a b => a.chunk_index ≤ b.chunk_index) := by
  induction ts generalizing i with
  | nil => simp [mkEntries]
  | cons t ts ih =>
    rw [mkEntries, List.pairwise_cons]
    refine ⟨?_, ih (i + 1)⟩
    intro e he
    exact le_trans (Nat.le_succ i) (mkEntries_index_ge file_name embed
      (i + 1) ts e he)

theorem mem_mkEntries_props {Emb : Type} (file_name : String)
    (embed : String → Emb) (i : Nat) (ts : List String) :
    ∀ e ∈ mkEntries file_name embed i ts,
      e.source_file = file_name ∧
      e.id = file_name ++ "_" ++ toString e.chunk_index := by
  induction ts generalizing i with
  | nil => simp [mkEntries]
  | cons t ts ih =>
    intro e he
    rcases List.mem_cons.mp he with heq | htl
    · subst heq; exact ⟨rfl, rfl⟩
    · exact ih (i + 1) e htl

/-! ## Claims C1, C2, C4 -/

/-- A vector belonging to a different document than the one being
re-indexed. -/
def staleEntry : VecEntry Int := ⟨"other_0", "other text", "other.txt", 0, 0⟩

/-- Claim C1 counterexample: re-indexing `doc.txt` deletes the stored
vector of `other.txt` even though its source-document metadata differs —
`process_document` resets the whole collection, not just the vectors of
the re-indexed document. -/
theorem process_document_deletes_other_documents :
    staleEntry.source_file ≠ "doc.txt" ∧
    staleEntry ∈ [staleEntry] ∧
    staleEntry ∉ processDocument [staleEntry] "doc.txt" ["x"]
      (fun _ => (0 : Int)) := by
  refine ⟨by decide, by decide, by decide⟩

/-- Claim C1 (amended): `process_document` deletes ALL previously stored
vectors — the whole collection, not only those whose metadata matches the
document — before inserting the new chunks: the outcome is independent of
the prior store, every surviving vector is a new chunk of the re-indexed
document with id `f"{file_name}_{i}"`, and retrieval over the re-indexed
store can only return those new chunks (no stale chunk survives). -/
theorem process_document_full_replace {Emb : Type}
    (store : List (VecEntry Emb)) (file_name : String)
    (all_splits : List String) (embed : String → Emb) :
    processDocument store file_name all_splits embed
        = processDocument [] file_name all_splits embed ∧
    (∀ e ∈ processDocument store file_name all_splits embed,
      e.source_file = file_name ∧
      e.id = file_name ++ "_" ++ toString e.chunk_index) ∧
    (∀ (query_embedding : Emb) (top_k : Nat) (dist : Emb → Emb → ℚ) e,
      e ∈ searchRanked (processDocument store file_name all_splits embed)
            file_name query_embedding top_k dist →
      e ∈ mkEntries file_name embed 0 all_splits) := by
  refine ⟨rfl, ?_, ?_⟩
  · intro e he
    exact mem_mkEntries_props file_name embed 0 all_splits e he
  · intro qe top_k dist e he
    have h1 := List.take_subset top_k _ he
    have h2 := (mem_rankSort _ e _).mp h1
    exact (List.mem_filter.mp h2).1

/-- Claim C2: over a freshly indexed document, the store query modelled by
`searchRanked` returns at most `top_k` entries, every returned entry's
source metadata equals the active document, the entries are ranked by
ascending cosine distance (descending similarity) with ties broken by
ascending chunk index, and `search_document` returns exactly their texts
in that order. -/
theorem search_document_ranked_spec {Emb : Type}
    (prev : List (VecEntry Emb)) (file_name query : String)
    (all_splits : List String) (embed : String → Emb)
    (dist : Emb → Emb → ℚ) (top_k : Nat) :
    (searchRanked (processDocument prev file_name all_splits embed)
        file_name (embed query) top_k dist).length ≤ top_k ∧
    (∀ e ∈ searchRanked (processDocument prev file_name all_splits embed)
        file_name (embed query) top_k dist, e.source_file = file_name) ∧
    (searchRanked (processDocument prev file_name all_splits embed)
        file_name (embed query) top_k dist).Pairwise
      (rankedLE (fun e : VecEntry Emb => dist (embed query) e.embedding)
        (fun e : VecEntry Emb => e.chunk_index)) ∧
    searchDocument
        (Except.ok (processDocument prev file_name all_splits embed))
        file_name query embed top_k dist
      = (searchRanked (processDocument prev file_name all_splits embed)
          file_name (embed query) top_k dist).map (fun e => e.text) := by
  refine ⟨List.length_take_le _ _, ?_, ?_, rfl⟩
  · intro e he
    have h1 := List.take_subset top_k _ he
    have h2 := (mem_rankSort _ e _).mp h1
    have h3 := (List.mem_filter.mp h2).2
    exact eq_of_beq h3
  · have hidx : ((processDocument prev file_name all_splits embed).filter
        (fun e => e.source_file == file_name)).Pairwise
        (fun a b => a.chunk_index ≤ b.chunk_index) :=
      (mkEntries_pairwise_index file_name embed 0 all_splits).filter _
    have hsorted := rankSort_pairwise
      (fun e : VecEntry Emb => dist (embed query) e.embedding)
      (fun e : VecEntry Emb => e.chunk_index) _ hidx
    exact hsorted.sublist (List.take_sublist _ _)

/-- Claim C4 counterexample: an empty query is not special-cased by
`search_document`: over a store holding one chunk it is embedded and
searched like any other query and returns that chunk, not the empty
sequence. -/
theorem search_document_empty_query_nonempty :
    searchDocument
        (Except.ok (processDocument ([] : List (VecEntry Int)) "doc.txt"
          ["hello chunk"] (fun _ => (0 : Int))))
        "doc.txt" "" (fun _ => (0 : Int)) 3 (fun _ _ => (0 : ℚ))
      = ["hello chunk"] ∧
    (["hello chunk"] : List String) ≠ [] := by
  refine ⟨rfl, by decide⟩

/-- Claim C4 (amended): `search_document` never raises — any failure of
the underlying store query is caught and the empty sequence is returned —
but an empty or whitespace-only query is NOT special-cased: it is embedded
and ranked like any other query (and may return passages). -/
theorem search_document_degrades {Emb : Type} (err : PyError)
    (store : List (VecEntry Emb)) (current_file query : String)
    (embed : String → Emb) (top_k : Nat) (dist : Emb → Emb → ℚ) :
    searchDocument (Except.error err) current_file query embed top_k dist
        = [] ∧
    (isBlank query = true →
      searchDocument (Except.ok store) current_file query embed top_k dist
        = (searchRanked store current_file (embed query) top_k dist).map
            (fun e => e.text)) :=
  ⟨rfl, fun _ => rfl⟩

/-- Witness for `search_document_degrades`: a failing store query yields
`[]`, and the blank query over a one-chunk store is searched normally. -/
theorem search_document_degrades_witness :
    searchDocument (Except.error PyError.runtimeError) "doc.txt" "q"
        (fun _ => (0 : Int)) 3 (fun _ _ => (0 : ℚ)) = [] ∧
    searchDocument
        (Except.ok (processDocument ([] : List (VecEntry Int)) "doc.txt"
          ["hello chunk"] (fun _ => (0 : Int))))
        "doc.txt" " " (fun _ => (0 : Int)) 3 (fun _ _ => (0 : ℚ))
      = (searchRanked (processDocument ([] : List (VecEntry Int)) "doc.txt"
          ["hello chunk"] (fun _ => (0 : Int))) "doc.txt" 0 3
          (fun _ _ => (0 : ℚ))).map (fun e => e.text) :=
  ⟨(search_document_degrades PyError.runtimeError [] "doc.txt" "q"
      (fun _ => (0 : Int)) 3 (fun _ _ => (0 : ℚ))).1,
   (search_document_degrades PyError.runtimeError
      (processDocument ([] : List (VecEntry Int)) "doc.txt" ["hello chunk"]
        (fun _ => (0 : Int)))
      "doc.txt" " " (fun _ => (0 : Int)) 3 (fun _ _ => (0 : ℚ))).2
     (by decide)⟩

/-! ## Prompt assembly: `RAGSystem.generate_response` -/

/-- `needle` starts the character list. -/
def startsWithChars : List Char → List Char → Bool
  | [], _ => true
  | _ :: _, [] => false
  | a :: as, b :: bs => a == b && startsWithChars as bs

/-- `needle` occurs somewhere in the character list (Python's
`needle in haystack`). -/
def containsChars (needle : List Char) : List Char → Bool
  | [] => needle.isEmpty
  | b :: rest => startsWithChars needle (b :: rest) || containsChars needle rest

/-- The fixed keyword list of `src/rag_system.py`, line 189. -/
def timeKeywords : List String := ["time", "when", "date", "today", "now"]

/-- `any(word in user_message.lower() for word in [...])`
(`src/rag_system.py`, line 189); lower-casing is applied character-wise. -/
def needs_time (user_message : String) : Bool :=
  timeKeywords.any
    (fun w => containsChars w.data (user_message.data.map Char.toLower))

/-- The text placed between the system instruction and the joined context
(`src/rag_system.py`, line 186). -/
def kbHeader : String :=
  "\n\nHere is relevant information from the knowledge base:\n"

/-- The instruction appended after the joined context
(`src/rag_system.py`, line 186). -/
def kbFooter : String :=
  "\n\nUse this information to answer the user's question. Prioritize information from the knowledge base."

/-- The `enhanced_system_prompt` computed by `RAGSystem.generate_response`
(`src/rag_system.py`, lines 180-192): the system instruction verbatim when
no chunk was retrieved, otherwise the instruction followed by the header,
the chunks joined with a blank line, and the footer; a current-timestamp
line is prepended when the user message holds a time keyword. -/
def enhanced_system_prompt (system_message_param : String)
    (relevant_chunks : List String) (user_message : String)
    (current_time : String) : String :=
  let base :=
    if relevant_chunks.isEmpty then system_message_param
    else
      system_message_param ++ kbHeader ++
        String.intercalate "\n\n" relevant_chunks ++ kbFooter
  if needs_time user_message then
    "Current time: " ++ current_time ++ "\n" ++ base
  else base

/-- A langchain chat message as `generate_response` builds them. -/
inductive Msg
  | system (content : String)
  | human (content : String)
  | ai (content : String)
deriving DecidableEq

/-- `RAGSystem.generate_response` (`src/rag_system.py`, lines 177-202).
It retrieves chunks and computes the enhanced system prompt, but its third
parameter is NAMED `SystemMessage`, which shadows the imported
`langchain_core.messages.SystemMessage` class inside the function body, so
line 197 evaluates `SystemMessage(content=...)` with a `str` value in call
position and raises `TypeError: str object is not callable` on every
invocation, before any message list reaches `self.llm.invoke`. -/
def generate_response {Emb : Type}
    (collection_response : Except PyError (List (VecEntry Emb)))
    (current_file : String) (embed : String → Emb) (dist : Emb → Emb → ℚ)
    (user_message : String) (chat_history : List Msg)
    (system_message_param : String) (current_time : String) :
    Except PyError String :=
  let relevant_chunks :=
    searchDocument collection_response current_file user_message embed 3 dist
  let _enhanced := enhanced_system_prompt system_message_param
    relevant_chunks user_message current_time
  let _history := chat_history
  Except.error PyError.typeError

/-! ## Claims C5 and C6 -/

/-- Claim C5: when the user message triggers no time keyword, an empty
retrieval list leaves the system instruction byte-for-byte unchanged, and
a non-empty one produces the instruction followed by the delimited context
section with all passage texts joined by a blank line in input order. -/
theorem enhanced_prompt_spec (system_message_param user_message
    current_time : String) (relevant_chunks : List String)
    (h : needs_time user_message = false) :
    enhanced_system_prompt system_message_param [] user_message current_time
        = system_message_param ∧
    (relevant_chunks ≠ [] →
      enhanced_system_prompt system_message_param relevant_chunks
          user_message current_time
        = system_message_param ++ kbHeader ++
            String.intercalate "\n\n" relevant_chunks ++ kbFooter) := by
  constructor
  · simp [enhanced_system_prompt, h]
  · intro hne
    simp [enhanced_system_prompt, h, List.isEmpty_iff, hne]

/-- Witness for `enhanced_prompt_spec` at a keyword-free user message,
with both an empty and a two-passage retrieval list. -/
theorem enhanced_prompt_spec_witness :
    needs_time "Summarize the document please" = false ∧
    enhanced_system_prompt "You are an assistant." []
        "Summarize the document please" "2025-01-01 00:00:00"
      = "You are an assistant." ∧
    enhanced_system_prompt "You are an assistant." ["passage one", "passage two"]
        "Summarize the document please" "2025-01-01 00:00:00"
      = "You are an assistant." ++ kbHeader ++
          String.intercalate "\n\n" ["passage one", "passage two"] ++ kbFooter :=
  ⟨by decide,
   (enhanced_prompt_spec "You are an assistant."
      "Summarize the document please" "2025-01-01 00:00:00"
      ["passage one", "passage two"] (by decide)).1,
   (enhanced_prompt_spec "You are an assistant."
      "Summarize the document please" "2025-01-01 00:00:00"
      ["passage one", "passage two"] (by decide)).2 (by decide)⟩

/-- Claim C6 (code bug): `generate_response` never hands any message
sequence to the LLM: because the string parameter named `SystemMessage`
shadows the imported message class, every call raises `TypeError` at the
message-construction step, for every store response, history and user
message. -/
theorem generate_response_always_raises {Emb : Type}
    (collection_response : Except PyError (List (VecEntry Emb)))
    (current_file : String) (embed : String → Emb) (dist : Emb → Emb → ℚ)
    (user_message : String) (chat_history : List Msg)
    (system_message_param : String) (current_time : String) :
    generate_response collection_response current_file embed dist
        user_message chat_history system_message_param current_time
      = Except.error PyError.typeError := rfl

end RagMVP
